import Mathlib

/-!
Shallow embedding of the Slack socket-mode client (`src/main.rs`) and proofs
about its dispatch loop, acknowledgment serialization and startup pipeline.

Modelling conventions:
* JSON values are the inductive `Json`; a websocket text frame's content is a
  `FrameText`, either `invalid` (text that is not JSON) or `json v` (text whose
  JSON parse yields `v`).  Both `serde_json::from_str` call sites in the source
  parse the same text, so both are derived from the same `FrameText`.
* Machine effects (log lines, websocket sends, outbound HTTP publishes) are
  recorded as a trace of `Action`s; `expect`/`panic` paths become the
  `StepOutcome.fatal` outcome carrying the panic message.
-/

namespace SlackSocketMode

/-- JSON values, as produced by `serde_json::from_str::<serde_json::Value>`. -/
inductive Json where
  | null
  | bool (b : Bool)
  | num (n : Int)
  | str (s : String)
  | arr (elems : List Json)
  | obj (fields : List (String × Json))

/-- Field lookup `serde_json::Value::get(key)`: defined on objects, `None` otherwise. -/
def Json.get : Json → String → Option Json
  | .obj fields, k => (fields.find? (fun p => p.1 == k)).map (fun p => p.2)
  | _, _ => none

/-- String projection `serde_json::Value::as_str`: `Some` only for string values. -/
def Json.asStr : Json → Option String
  | .str s => some s
  | _ => none

/-- Lower-case hex digit, used by the JSON string escaper. -/
def hexDigit (n : Nat) : Char :=
  if n < 10 then Char.ofNat (48 + n) else Char.ofNat (87 + (n % 16))

/-- Escaping of one character inside a JSON string literal, serde_json rules. -/
def escapeJsonChar (c : Char) : String :=
  if c = '"' then "\\\""
  else if c = '\\' then "\\\\"
  else if c = '\x08' then "\\b"
  else if c = '\x09' then "\\t"
  else if c = '\x0a' then "\\n"
  else if c = '\x0c' then "\\f"
  else if c = '\x0d' then "\\r"
  else if c.toNat < 0x20 then
    "\\u00" ++ String.singleton (hexDigit (c.toNat / 16))
      ++ String.singleton (hexDigit (c.toNat % 16))
  else String.singleton c

/-- Rendering of a string as a quoted JSON string literal, serde_json rules. -/
def jsonEscapeString (s : String) : String :=
  "\"" ++ String.join (s.toList.map escapeJsonChar) ++ "\""

/-- The inbound tagged message kinds of `enum SocketModeMessage` in `main.rs`:
internally tagged by the `type` field, snake_case variant names. -/
inductive SocketModeMessage where
  | hello
  | disconnect (reason : String)
  | eventsApi (envelope_id : String)
deriving DecidableEq

/-- Deserialization of `SocketModeMessage` from a JSON value, serde rules:
the value must be an object whose `type` field is the string tag
`hello`, `disconnect` or `events_api`; `disconnect` requires a string
field `reason`, `events_api` a string field `envelope_id`; anything
else fails.  Unknown extra fields are ignored, as serde does by default. -/
def parseSocketModeMessage : Json → Option SocketModeMessage
  | .obj fields =>
    match (Json.obj fields).get "type" with
    | some (.str "hello") => some .hello
    | some (.str "disconnect") =>
      ((Json.obj fields).get "reason").bind Json.asStr |>.map .disconnect
    | some (.str "events_api") =>
      ((Json.obj fields).get "envelope_id").bind Json.asStr |>.map .eventsApi
    | _ => none
  | _ => none

/-- Content of a websocket text frame: either text that is not valid JSON, or
text whose JSON parse yields `v`.  Both `serde_json::from_str` call sites in
`main.rs` parse this same text. -/
inductive FrameText where
  | invalid (raw : String)
  | json (v : Json)

/-- Typed parse `serde_json::from_str::<SocketModeMessage>(&t)`: fails on invalid
JSON, otherwise applies the tagged-enum rules to the parsed value. -/
def parseFrameText : FrameText → Option SocketModeMessage
  | .invalid _ => none
  | .json v => parseSocketModeMessage v

/-- Generic parse `serde_json::from_str::<serde_json::Value>(&t)`: fails exactly
when the text is not valid JSON. -/
def genericParse : FrameText → Option Json
  | .invalid _ => none
  | .json v => some v

/-- The struct `SocketModeAcknowledgeMessage` in `main.rs`: `envelope_id` plus an
optional `payload` that is skipped when `None` (`skip_serializing_if`). -/
structure SocketModeAcknowledgeMessage where
  envelope_id : String
  payload : Option String
deriving DecidableEq

/-- Serialization (`serde_json::to_string`) of the acknowledge message: the `payload` field is
omitted entirely when `None`, per its `skip_serializing_if` attribute. -/
def SocketModeAcknowledgeMessage.serialize (m : SocketModeAcknowledgeMessage) : String :=
  "\x7b\"envelope_id\":" ++ jsonEscapeString m.envelope_id ++
    (match m.payload with
     | none => ""
     | some p => ",\"payload\":" ++ jsonEscapeString p) ++ "\x7d"

/-- Compact serde_json rendering of the `json!({channel, text})` body built in
`SlackClient::send_message` (keys in the order serde_json emits them:
its default `BTreeMap` sorts keys, and `channel` < `text`). -/
def postMessageBody (channel text : String) : String :=
  "\x7b\"channel\":" ++ jsonEscapeString channel ++
    ",\"text\":" ++ jsonEscapeString text ++ "\x7d"

/-- An outbound HTTP POST, as issued by `SlackClient::send_message`. -/
structure PostRequest where
  url : String
  body : String
deriving DecidableEq

/-- The call `SlackClient::send_message(channel, text)`: one POST to the fixed
message endpoint with the `{channel, text}` JSON body. -/
def SlackClient.send_message (channel text : String) : PostRequest :=
  ⟨"https://slack.com/api/chat.postMessage", postMessageBody channel text⟩

/-- Observable effects of one dispatch step, in program order. -/
inductive Action where
  | logLine (s : String)
  | sendText (s : String)
  | publish (channel : String) (text : String)
deriving DecidableEq

/-- True exactly for websocket text sends (the only replies the loop makes). -/
def isSendText : Action → Bool
  | .sendText _ => true
  | _ => false

/-- True exactly for outbound publish calls. -/
def isPublish : Action → Bool
  | .publish _ _ => true
  | _ => false

/-- Outcome of one iteration of the dispatch loop. -/
inductive StepOutcome where
  | next
  | halt
  | fatal (msg : String)
deriving DecidableEq

/-- The chain `v.get("payload").and_then(|v| v.get("event"))` in `main.rs`. -/
def eventOf (v : Json) : Option Json :=
  (v.get "payload").bind (fun p => p.get "event")

/-- The `payload.event.channel` string of an `events_api` payload, if present. -/
def eventChannel (v : Json) : Option String :=
  (eventOf v).bind (fun ev => (ev.get "channel").bind Json.asStr)

/-- The `payload.event.text` string of an `events_api` payload, if present. -/
def eventText (v : Json) : Option String :=
  (eventOf v).bind (fun ev => (ev.get "text").bind Json.asStr)

/-- The fixed quoting template `format!("You said: {}", format!("```{}```", text))`. -/
def quoteText (t : String) : String :=
  "You said: " ++ ("```" ++ t ++ "```")

/-- The `Ok(SocketModeMessage::EventsApi ..)` branch of the dispatch loop:
log, send the acknowledgment (no payload), re-parse the raw text as a generic
JSON value, then extract `payload.event`, `channel` and `text` — each missing
step panics (`expect`) — and finally issue the one publish call. -/
def handleEventsApi (t : FrameText) (envelope_id : String) : List Action × StepOutcome :=
  let ackActs : List Action :=
    [.logLine "Events API Message",
     .sendText (SocketModeAcknowledgeMessage.serialize ⟨envelope_id, none⟩)]
  match genericParse t with
  | none => (ackActs ++ [.logLine "Failed to parse event"], .next)
  | some v =>
    match eventOf v with
    | none => (ackActs, .fatal "Failed to get event")
    | some ev =>
      match (ev.get "channel").bind Json.asStr with
      | none => (ackActs, .fatal "Failed to get channel id")
      | some channel =>
        match (ev.get "text").bind Json.asStr with
        | none => (ackActs, .fatal "Failed to get text")
        | some txt => (ackActs ++ [.publish channel (quoteText txt)], .next)

/-- Dispatch of one text frame (`tungstenite::Message::Text` arm of `main`). -/
def dispatchText (t : FrameText) : List Action × StepOutcome :=
  match parseFrameText t with
  | some .hello => ([.logLine "Hello"], .next)
  | some (.disconnect reason) =>
    ([.logLine ("Disconnect request: " ++ reason)], .halt)
  | some (.eventsApi e) => handleEventsApi t e
  | none => ([.logLine "Unknown text frame"], .next)

/-- A decoded websocket frame, as matched by the dispatch loop: text, ping, or
everything else (binary/close/pong, the wildcard arm). -/
inductive Frame where
  | text (t : FrameText)
  | ping (bytes : List Nat)
  | other

/-- Dispatch of one decoded frame. -/
def processFrame : Frame → List Action × StepOutcome
  | .text t => dispatchText t
  | .ping _ => ([.logLine "ping"], .next)
  | .other => ([.logLine "Unknown frame"], .next)

/-- How the dispatch loop ended. -/
inductive LoopExit where
  | streamEnded
  | terminated
  | panicked (msg : String)
deriving DecidableEq

/-- The `while let Some(m) = stream.next()` loop: frames are consumed strictly
in order; `halt` (the `Disconnect` branch) breaks out of the loop, a `fatal`
outcome aborts the process, otherwise the next frame is pulled. -/
def runLoop : List Frame → List Action × LoopExit
  | [] => ([], .streamEnded)
  | f :: rest =>
    match processFrame f with
    | (acts, .next) => (acts ++ (runLoop rest).1, (runLoop rest).2)
    | (acts, .halt) => (acts, .terminated)
    | (acts, .fatal m) => (acts, .panicked m)

/-- The struct `OpenConnectionsResponse` in `main.rs`: the bootstrap descriptor. -/
structure OpenConnectionsResponse where
  ok : Bool
  url : Option String
  error : Option String
deriving DecidableEq

/-- Host component of a parsed URL, per the `url` crate: a registrable domain
name, or an IP-address literal (v4 or v6). -/
inductive UrlHost where
  | domain (name : String)
  | ipv4 (addr : List Nat)
  | ipv6 (addr : List Nat)
deriving DecidableEq

/-- A parsed URL, modelling the surface of `url::Url` that `main` reads. -/
structure Url where
  scheme : String
  host : UrlHost
  port : Option Nat
  path : String
deriving DecidableEq

/-- The accessor `url::Url::domain()`: the host as a string only when it is a domain name;
`None` for IP-address hosts. -/
def Url.domain (u : Url) : Option String :=
  match u.host with
  | .domain name => some name
  | _ => none

/-- First externally visible step of startup after the bootstrap response:
either the process aborts with a panic message, or it issues its first TCP
connection attempt to `addr` (and later upgrades using the full original
URL string `wssUrl`). -/
inductive StartupStep where
  | abortMsg (msg : String)
  | tcpConnect (addr : String) (wssUrl : String)
deriving DecidableEq

/-- Lines 93–104 of `main.rs`: check `ok`, unwrap `url`, parse it, take its
domain, and connect to `domain:443`.  `parseUrl` stands for `url::Url::parse`
(`none` models a parse error).  Every failure is a panic, in source order. -/
def startup (resp : OpenConnectionsResponse) (parseUrl : String → Option Url) :
    StartupStep :=
  if resp.ok then
    match resp.url with
    | none => .abortMsg "no url passed from server"
    | some wssUrl =>
      match parseUrl wssUrl with
      | none => .abortMsg "Failed to parse entrypoint url"
      | some u =>
        match u.domain with
        | none => .abortMsg "no domain name?"
        | some d => .tcpConnect (d ++ ":443") wssUrl
  else
    .abortMsg ("app.connections.open failed: " ++ resp.error.getD "Unknown error")

/-- True exactly for the fatal (panic) outcome. -/
def isFatal : StepOutcome → Bool
  | .fatal _ => true
  | _ => false

/-- True exactly for the log line emitted by the dead `Err` branch of the
second parse in the `EventsApi` arm. -/
def isEventParseFailLog : Action → Bool
  | .logLine s => s == "Failed to parse event"
  | _ => false

/-! ### Concrete fixtures used by the witness theorems -/

/-- A well-formed `events_api` frame value: envelope `E1`, channel `C1`, text `hi`
(end-to-end scenario C of the spec). -/
def evFrameVal : Json :=
  .obj [("type", .str "events_api"), ("envelope_id", .str "E1"),
        ("payload", .obj [("event",
          .obj [("channel", .str "C1"), ("text", .str "hi")])])]

/-- An `events_api` frame value whose `payload.event` lacks the `text` field. -/
def evNoTextVal : Json :=
  .obj [("type", .str "events_api"), ("envelope_id", .str "E2"),
        ("payload", .obj [("event", .obj [("channel", .str "C1")])])]

/-- A well-formed `disconnect` frame value. -/
def discFrameVal : Json :=
  .obj [("type", .str "disconnect"), ("reason", .str "link_disabled")]

/-- A `disconnect`-tagged object with no `reason` field. -/
def bareDisconnectVal : Json :=
  .obj [("type", .str "disconnect")]

/-- A JSON object with an unknown `type` discriminator. -/
def unknownTagVal : Json :=
  .obj [("type", .str "bogus")]

/-- A bootstrap response with `ok=false` (end-to-end scenario B of the spec). -/
def failedResp : OpenConnectionsResponse :=
  ⟨false, none, some "invalid_auth"⟩

/-- A bootstrap response with `ok=true` and a URL. -/
def okResp : OpenConnectionsResponse :=
  ⟨true, some "wss://example.com/link", some ""⟩

/-- A URL-parse stub mapping the fixture URL to a domain host with an explicit
port that differs from 443. -/
def parseDomainUrl : String → Option Url :=
  fun s =>
    if s == "wss://example.com/link" then
      some ⟨"wss", .domain "example.com", some 8080, "/link"⟩
    else none

/-- A URL-parse stub mapping the fixture URL to an IPv4-literal host. -/
def parseIpUrl : String → Option Url :=
  fun s =>
    if s == "wss://example.com/link" then
      some ⟨"wss", .ipv4 [192, 0, 2, 1], some 443, "/link"⟩
    else none

/-! ### Claim theorems -/

/-- Claim C1: for every inbound text frame that parses as an `events_api`
message with envelope id `E`, the dispatch step sends exactly one
acknowledgment — the serialization of `envelope_id = E` with no payload — as
its second action (right after the log line), and no publish call occurs
before it. -/
theorem events_api_acked_once_before_publish (t : FrameText) (E : String)
    (h : parseFrameText t = some (.eventsApi E)) :
    (processFrame (.text t)).1.filter isSendText
        = [Action.sendText (SocketModeAcknowledgeMessage.serialize ⟨E, none⟩)]
    ∧ (processFrame (.text t)).1.take 2
        = [Action.logLine "Events API Message",
           Action.sendText (SocketModeAcknowledgeMessage.serialize ⟨E, none⟩)]
    ∧ ((processFrame (.text t)).1.take 2).filter isPublish = [] := by
  cases t with
  | invalid raw => simp [parseFrameText] at h
  | json v =>
    have hp : parseSocketModeMessage v = some (.eventsApi E) := h
    simp only [processFrame, dispatchText, parseFrameText, hp]
    simp only [handleEventsApi, genericParse]
    cases he : eventOf v with
    | none => simp [isSendText, isPublish]
    | some ev =>
      cases hc : (ev.get "channel").bind Json.asStr with
      | none => simp [hc, isSendText, isPublish]
      | some C =>
        cases ht : (ev.get "text").bind Json.asStr with
        | none => simp [hc, ht, isSendText, isPublish]
        | some T => simp [hc, ht, isSendText, isPublish]

/-- Witness for C1: the scenario-C frame (envelope `E1`) is acknowledged
exactly once, as the second action, with no publish before it. -/
theorem events_api_acked_once_before_publish_witness :
    (processFrame (.text (.json evFrameVal))).1.filter isSendText
        = [Action.sendText (SocketModeAcknowledgeMessage.serialize ⟨"E1", none⟩)]
    ∧ (processFrame (.text (.json evFrameVal))).1.take 2
        = [Action.logLine "Events API Message",
           Action.sendText (SocketModeAcknowledgeMessage.serialize ⟨"E1", none⟩)]
    ∧ ((processFrame (.text (.json evFrameVal))).1.take 2).filter isPublish = [] :=
  events_api_acked_once_before_publish (.json evFrameVal) "E1" rfl

/-- Claim C2: a text frame that parses as `disconnect` (any reason string)
ends the loop in the terminated state, and the frames after it contribute
nothing — the result does not depend on `rest`. -/
theorem disconnect_terminates (t : FrameText) (r : String) (rest : List Frame)
    (h : parseFrameText t = some (.disconnect r)) :
    runLoop (Frame.text t :: rest)
      = ([.logLine ("Disconnect request: " ++ r)], .terminated) := by
  simp [runLoop, processFrame, dispatchText, h]

/-- Witness for C2: a concrete disconnect frame terminates the loop even with
a pending `events_api` frame behind it, which is never dispatched. -/
theorem disconnect_terminates_witness :
    runLoop (Frame.text (.json discFrameVal) :: [Frame.text (.json evFrameVal)])
      = ([.logLine ("Disconnect request: " ++ "link_disabled")], .terminated) :=
  disconnect_terminates (.json discFrameVal) "link_disabled"
    [Frame.text (.json evFrameVal)] rfl

/-- Claim C3: a malformed text frame (anything the tagged parse rejects:
invalid JSON, missing `type`, unknown tag) produces only a log line — no send,
no publish — with the `next` outcome, and the loop goes on to process the
remaining frames unchanged. -/
theorem malformed_frame_tolerated (t : FrameText) (rest : List Frame)
    (h : parseFrameText t = none) :
    processFrame (.text t) = ([.logLine "Unknown text frame"], .next)
    ∧ runLoop (Frame.text t :: rest)
        = (.logLine "Unknown text frame" :: (runLoop rest).1, (runLoop rest).2) := by
  have hp : processFrame (.text t) = ([.logLine "Unknown text frame"], .next) := by
    simp [processFrame, dispatchText, h]
  refine ⟨hp, ?_⟩
  simp [runLoop, hp]

/-- Witness for C3: a frame with an unknown `type` tag is only logged, and the
loop continues with the rest of the stream. -/
theorem malformed_frame_tolerated_witness :
    processFrame (.text (.json unknownTagVal))
        = ([.logLine "Unknown text frame"], .next)
    ∧ runLoop (Frame.text (.json unknownTagVal) :: [Frame.ping [1, 2]])
        = (.logLine "Unknown text frame" :: (runLoop [Frame.ping [1, 2]]).1,
           (runLoop [Frame.ping [1, 2]]).2) :=
  malformed_frame_tolerated (.json unknownTagVal) [Frame.ping [1, 2]] rfl

/-- Claim C4: an `events_api` frame whose payload carries string fields
`payload.event.channel = C` and `payload.event.text = T` triggers exactly one
publish call, to channel `C` with text `"You said: "` followed by `T` wrapped
in triple backticks, and `send_message` posts exactly the `{channel, text}`
JSON body to the message endpoint. -/
theorem events_api_single_publish (v : Json) (E C T : String)
    (h : parseSocketModeMessage v = some (.eventsApi E))
    (hc : eventChannel v = some C) (ht : eventText v = some T) :
    (processFrame (.text (.json v))).1.filter isPublish
        = [Action.publish C (quoteText T)]
    ∧ (processFrame (.text (.json v))).2 = .next
    ∧ SlackClient.send_message C (quoteText T)
        = ⟨"https://slack.com/api/chat.postMessage", postMessageBody C (quoteText T)⟩ := by
  cases he : eventOf v with
  | none => simp [eventChannel, he] at hc
  | some ev =>
    simp only [eventChannel, he, Option.some_bind] at hc
    simp only [eventText, he, Option.some_bind] at ht
    refine ⟨?_, ?_, rfl⟩ <;>
      simp [processFrame, dispatchText, parseFrameText, h, handleEventsApi,
            genericParse, he, hc, ht, isPublish, isSendText]

/-- Witness for C4: scenario C — channel `C1`, text `hi` — publishes once with
the quoted template, and the serialized body is the exact JSON of the spec. -/
theorem events_api_single_publish_witness :
    ((processFrame (.text (.json evFrameVal))).1.filter isPublish
        = [Action.publish "C1" (quoteText "hi")])
    ∧ postMessageBody "C1" (quoteText "hi")
        = "\x7b\"channel\":\"C1\",\"text\":\"You said: ```hi```\"\x7d" :=
  ⟨(events_api_single_publish evFrameVal "E1" "C1" "hi" rfl rfl rfl).1, rfl⟩

/-- Claim C5: a bootstrap descriptor with `ok = false` makes startup abort with
the descriptor error (or the `Unknown error` fallback) and never reach a TCP
connection attempt. -/
theorem bootstrap_not_ok_aborts (resp : OpenConnectionsResponse)
    (parseUrl : String → Option Url) (h : resp.ok = false) :
    startup resp parseUrl
        = .abortMsg ("app.connections.open failed: " ++ resp.error.getD "Unknown error")
    ∧ ∀ addr w, startup resp parseUrl ≠ .tcpConnect addr w := by
  refine ⟨by simp [startup, h], ?_⟩
  intro addr w
  simp [startup, h]

/-- Witness for C5: scenario B — `ok=false` with error `invalid_auth` aborts
surfacing that string. -/
theorem bootstrap_not_ok_aborts_witness :
    startup failedResp (fun _ => none)
      = .abortMsg ("app.connections.open failed: "
          ++ failedResp.error.getD "Unknown error") :=
  (bootstrap_not_ok_aborts failedResp (fun _ => none) rfl).1

/-- Claim C6: serializing an acknowledgment for envelope `abc123` with no
payload yields exactly the object with the single `envelope_id` field — and in
particular not the variant with an explicit `payload:null`. -/
theorem ack_serialization_exact :
    SocketModeAcknowledgeMessage.serialize ⟨"abc123", none⟩
        = "\x7b\"envelope_id\":\"abc123\"\x7d"
    ∧ SocketModeAcknowledgeMessage.serialize ⟨"abc123", none⟩
        ≠ "\x7b\"envelope_id\":\"abc123\",\"payload\":null\x7d" :=
  ⟨rfl, by decide⟩

/-- Claim C7: an `events_api` frame whose payload lacks the
`payload.event.channel` string or the `payload.event.text` string makes the
dispatch step fatal (a panic outcome) with no publish call issued. -/
theorem missing_event_fields_fatal (v : Json) (E : String)
    (h : parseSocketModeMessage v = some (.eventsApi E))
    (hmiss : eventChannel v = none ∨ eventText v = none) :
    isFatal (processFrame (.text (.json v))).2 = true
    ∧ (processFrame (.text (.json v))).1.filter isPublish = [] := by
  have hred : processFrame (.text (.json v)) = handleEventsApi (.json v) E := by
    simp [processFrame, dispatchText, parseFrameText, h]
  rw [hred]
  cases he : eventOf v with
  | none => simp [handleEventsApi, genericParse, he, isFatal, isPublish]
  | some ev =>
    rcases hmiss with hc | ht
    · simp only [eventChannel, he, Option.some_bind] at hc
      simp [handleEventsApi, genericParse, he, hc, isFatal, isPublish]
    · simp only [eventText, he, Option.some_bind] at ht
      cases hc2 : (ev.get "channel").bind Json.asStr with
      | none => simp [handleEventsApi, genericParse, he, hc2, isFatal, isPublish]
      | some C => simp [handleEventsApi, genericParse, he, hc2, ht, isFatal, isPublish]

/-- Witness for C7: an `events_api` frame whose event has a channel but no
text field panics with no publish. -/
theorem missing_event_fields_fatal_witness :
    isFatal (processFrame (.text (.json evNoTextVal))).2 = true
    ∧ (processFrame (.text (.json evNoTextVal))).1.filter isPublish = [] :=
  missing_event_fields_fatal evNoTextVal "E2" rfl (Or.inr rfl)

/-- Claim C8: for a text frame that already parsed as `events_api`, the second
parse of the same text as a generic JSON value always succeeds, so the
`Failed to parse event` branch never contributes to the trace. -/
theorem reparse_branch_unreachable (t : FrameText) (E : String)
    (h : parseFrameText t = some (.eventsApi E)) :
    (genericParse t).isSome = true
    ∧ (processFrame (.text t)).1.filter isEventParseFailLog = [] := by
  cases t with
  | invalid raw => simp [parseFrameText] at h
  | json v =>
    have hp : parseSocketModeMessage v = some (.eventsApi E) := h
    refine ⟨rfl, ?_⟩
    simp only [processFrame, dispatchText, parseFrameText, hp]
    simp only [handleEventsApi, genericParse]
    cases he : eventOf v with
    | none => simp [isEventParseFailLog]
    | some ev =>
      cases hc : (ev.get "channel").bind Json.asStr with
      | none => simp [hc, isEventParseFailLog]
      | some C =>
        cases ht : (ev.get "text").bind Json.asStr with
        | none => simp [hc, ht, isEventParseFailLog]
        | some T => simp [hc, ht, isEventParseFailLog]

/-- Witness for C8: on the scenario-C frame the generic parse succeeds and the
trace holds no `Failed to parse event` line. -/
theorem reparse_branch_unreachable_witness :
    (genericParse (.json evFrameVal)).isSome = true
    ∧ (processFrame (.text (.json evFrameVal))).1.filter isEventParseFailLog = [] :=
  reparse_branch_unreachable (.json evFrameVal) "E1" rfl

/-- Claim C9: a `disconnect`-tagged frame with no `reason` field fails the
tagged parse (the `reason` field is required), is handled by the
malformed-frame branch with only a log line and no reply, and the loop keeps
consuming subsequent frames instead of terminating. -/
theorem bare_disconnect_not_terminating :
    parseFrameText (.json bareDisconnectVal) = none
    ∧ processFrame (.text (.json bareDisconnectVal))
        = ([.logLine "Unknown text frame"], .next)
    ∧ runLoop [Frame.text (.json bareDisconnectVal),
               Frame.text (.json (.obj [("type", .str "hello")]))]
        = ([.logLine "Unknown text frame", .logLine "Hello"], .streamEnded) :=
  ⟨rfl, rfl, rfl⟩

/-- Claim C10: with `ok=true` and a parseable URL, startup aborts before any
TCP attempt when the URL host is not a domain name, and with a domain host it
connects to `domain:443` whatever port the URL carries. -/
theorem startup_requires_domain_port_443 (resp : OpenConnectionsResponse)
    (parseUrl : String → Option Url) (s : String) (u : Url)
    (hok : resp.ok = true) (hurl : resp.url = some s) (hparse : parseUrl s = some u) :
    (u.domain = none → startup resp parseUrl = .abortMsg "no domain name?")
    ∧ ∀ d, u.domain = some d → startup resp parseUrl = .tcpConnect (d ++ ":443") s := by
  constructor
  · intro hd; simp [startup, hok, hurl, hparse, hd]
  · intro d hd; simp [startup, hok, hurl, hparse, hd]

/-- Witness for C10: an IPv4-literal host aborts with `no domain name?`; the
same URL parsed to the domain `example.com` with explicit port 8080 still
connects to `example.com:443`. -/
theorem startup_requires_domain_port_443_witness :
    startup okResp parseIpUrl = .abortMsg "no domain name?"
    ∧ startup okResp parseDomainUrl
        = .tcpConnect ("example.com" ++ ":443") "wss://example.com/link" :=
  ⟨(startup_requires_domain_port_443 okResp parseIpUrl "wss://example.com/link"
      ⟨"wss", .ipv4 [192, 0, 2, 1], some 443, "/link"⟩ rfl rfl rfl).1 rfl,
   (startup_requires_domain_port_443 okResp parseDomainUrl "wss://example.com/link"
      ⟨"wss", .domain "example.com", some 8080, "/link"⟩ rfl rfl rfl).2
     "example.com" rfl⟩

end SlackSocketMode
